import Mathlib

/-!
Shallow embedding of the titan user-space internetworking stack
(virtual-IP forwarding plane plus TCP-equivalent transport), written
from the Rust sources, together with theorems settling the spec claims.

Machine integers are modelled as `Nat` with explicit bounds or
reductions modulo a power of two where the source relies on the width.
Side effects (datagram transmission, channel completion, rng draws) are
modelled as explicit parameters.
-/

set_option maxRecDepth 4000

deriving instance DecidableEq for Except

namespace Titan

/-! ### src/src/protocol/mod.rs -/

/-- The protocol enum registered under 1-byte protocol numbers. -/
inductive Protocol where
  | Rip
  | Test
  | Tcp
deriving DecidableEq, Repr, Fintype

inductive ParseProtocolError where
  | Unsupported
deriving DecidableEq, Repr

/-- `impl TryFrom<u8> for Protocol`; the argument ranges over byte values. -/
def Protocol.try_from (value : Nat) : Except ParseProtocolError Protocol :=
  match value with
  | 0 => .ok .Test
  | 200 => .ok .Rip
  | 6 => .ok .Tcp
  | _ => .error .Unsupported

/-- `impl Into<u8> for Protocol`. -/
def Protocol.into_u8 : Protocol → Nat
  | .Rip => 200
  | .Test => 0
  | .Tcp => 6

/-! ### Protocol limits and defaults

From src/src/protocol/tcp/mod.rs and src/src/node_main.rs.  Durations
are modelled by their length in seconds (`Duration::from_secs`). -/

def TCP_DEFAULT_WINDOW_SZ : Nat := (1 <<< 16) - 1

/-- The maximum payload size for each TCP packet. -/
def MAX_SEGMENT_SZ : Nat := 1024

/-- The maximum number of TCP connections waiting to be accepted on a
listener port. -/
def MAX_PENDING_TCP_CONNECTIONS : Nat := 1024

/-- `TCP_DEFAULT_CONNECTION_TIMEOUT = Duration::from_secs(2)`, in seconds. -/
def TCP_DEFAULT_CONNECTION_TIMEOUT_SECS : Nat := 2

/-- `RIP_UPDATE_INTERVAL = Duration::from_secs(5)` (node_main.rs), in seconds. -/
def RIP_UPDATE_INTERVAL_SECS : Nat := 5

/-- `ROUTING_ENTRY_MAX_AGE = Duration::from_secs(12)` (node_main.rs), in seconds. -/
def ROUTING_ENTRY_MAX_AGE_SECS : Nat := 12

/-! ### IPv4 addresses

`std::net::Ipv4Addr`, reduced to its four octets. -/

structure Ipv4Addr where
  o1 : Nat
  o2 : Nat
  o3 : Nat
  o4 : Nat
deriving DecidableEq, Repr

/-! ### src/ip/src/net/link.rs -/

namespace iplink

/-- `RipMessage` serialization is stubbed in the source (`into_bytes`
returns an empty payload for both variants), so the carried message is
immaterial here. -/
inductive ProtocolPayload where
  | RIP
  | Test (s : String)
deriving DecidableEq, Repr

/-- `ProtocolPayload::into_bytes`: the 1-byte protocol number together
with the serialized payload bytes (empty in the source). -/
def ProtocolPayload.into_bytes : ProtocolPayload → Nat × List Nat
  | .RIP => (200, [])
  | .Test _ => (0, [])

/-- `const TTL: u8 = 15` in src/ip/src/net/link.rs. -/
def TTL : Nat := 15

/-- The fields of `etherparse::Ipv4Header` populated by `Ipv4Header::new`
that the claims mention. -/
structure Ipv4Header where
  payload_len : Nat
  time_to_live : Nat
  protocol : Nat
  source : Ipv4Addr
  destination : Ipv4Addr
deriving DecidableEq, Repr

structure LinkDefinition where
  dest_port : Nat
  interface_ip : Ipv4Addr
  dest_ip : Ipv4Addr
deriving DecidableEq, Repr

structure Link where
  dest_port : Nat
  dest_virtual_ip : Ipv4Addr
  src_virtual_ip : Ipv4Addr
deriving DecidableEq, Repr

inductive ParseLinkError where
  | NoIp
  | NoPort
  | NoSrcVirtualIp
  | NoDstVirtualIp
  | MalformedPort
  | MalformedIp
deriving DecidableEq, Repr

/-- `LinkDefinition::into_link` (the UDP socket handle is external). -/
def LinkDefinition.into_link (d : LinkDefinition) : Link :=
  { dest_port := d.dest_port
    dest_virtual_ip := d.dest_ip
    src_virtual_ip := d.interface_ip }

/-- `Link::send`: builds the IPv4 header over the serialized payload and
emits header plus payload on the datagram socket.  The model returns the
constructed header and the payload bytes handed to the socket. -/
def Link.send (l : Link) (payload : ProtocolPayload) : Ipv4Header × List Nat :=
  let (protocol, payload) := payload.into_bytes
  let ip_header : Ipv4Header :=
    { payload_len := payload.length
      time_to_live := TTL
      protocol := protocol
      source := l.src_virtual_ip
      destination := l.dest_virtual_ip }
  (ip_header, payload)

end iplink

/-! ### Rust standard-library string primitives

Executable models of the `std` parsing functions the sources call:
`str::split_whitespace`, `FromStr` for the unsigned integer types
(optional leading plus sign then ascii digits, bounded by the width),
and `FromStr` for `Ipv4Addr` (four dot-separated decimal octets, each
at most 255 with no leading zeros). -/

/-- Numeric value of a list of ascii digits, most significant first. -/
def digitsToNat (cs : List Char) : Nat :=
  cs.foldl (fun acc c => acc * 10 + (c.toNat - 48)) 0

/-- Accumulator-style worker for `split_whitespace`: `cur` holds the
current word reversed. -/
def splitWsAux : List Char → List Char → List String
  | [], cur => if cur.isEmpty then [] else [String.mk cur.reverse]
  | c :: rest, cur =>
    if c.isWhitespace then
      if cur.isEmpty then splitWsAux rest []
      else String.mk cur.reverse :: splitWsAux rest []
    else splitWsAux rest (c :: cur)

/-- `str::split_whitespace` collected into a list (empty words dropped). -/
def split_whitespace (s : String) : List String :=
  splitWsAux s.data []

/-- `str::parse` for an unsigned integer type with maximum value
`maxVal`: an optional leading plus sign, then at least one ascii digit,
no other characters, and the value must fit. -/
def parseUnsigned (maxVal : Nat) (s : String) : Option Nat :=
  let ds := match s.data with
    | '+' :: rest => rest
    | cs => cs
  if ds.isEmpty then none
  else if ds.all Char.isDigit then
    let v := digitsToNat ds
    if v ≤ maxVal then some v else none
  else none

def parse_u8 (s : String) : Option Nat := parseUnsigned 255 s

def parse_u16 (s : String) : Option Nat := parseUnsigned 65535 s

/-- `usize` is 64 bits wide on the targets the repository builds for. -/
def parse_usize (s : String) : Option Nat := parseUnsigned (2 ^ 64 - 1) s

/-- Split on the dot character, keeping empty groups (an empty group
then fails octet parsing, as in `Ipv4Addr::from_str`). -/
def splitDotAux : List Char → List Char → List (List Char)
  | [], cur => [cur.reverse]
  | c :: rest, cur =>
    if c = '.' then cur.reverse :: splitDotAux rest []
    else splitDotAux rest (c :: cur)

/-- One octet of `Ipv4Addr::from_str`: nonempty ascii digits, no
leading zero (except the single digit 0), value at most 255. -/
def parseOctet (cs : List Char) : Option Nat :=
  match cs with
  | [] => none
  | c :: rest =>
    if (c :: rest).all Char.isDigit then
      if c = '0' ∧ ¬ rest.isEmpty then none
      else
        let v := digitsToNat (c :: rest)
        if v ≤ 255 then some v else none
    else none

/-- `Ipv4Addr::from_str`: exactly four dot-separated octets. -/
def parse_ipv4 (s : String) : Option Ipv4Addr :=
  match splitDotAux s.data [] with
  | [a, b, c, d] =>
    match parseOctet a, parseOctet b, parseOctet c, parseOctet d with
    | some x1, some x2, some x3, some x4 => some ⟨x1, x2, x3, x4⟩
    | _, _, _, _ => none
  | _ => none

namespace iplink

/-- `LinkDefinition::try_parse`: the iterator calls `next()` four times;
the first field (the peer datagram ip) is only checked for presence,
never parsed. -/
def LinkDefinition.try_parse (raw_link : String) : Except ParseLinkError LinkDefinition :=
  match split_whitespace raw_link with
  | [] => .error .NoIp
  | _ :: rest1 =>
    match rest1 with
    | [] => .error .NoPort
    | p :: rest2 =>
      match parse_u16 p with
      | none => .error .MalformedPort
      | some dest_port =>
        match rest2 with
        | [] => .error .NoSrcVirtualIp
        | s1 :: rest3 =>
          match parse_ipv4 s1 with
          | none => .error .MalformedIp
          | some interface_ip =>
            match rest3 with
            | [] => .error .NoDstVirtualIp
            | s2 :: _ =>
              match parse_ipv4 s2 with
              | none => .error .MalformedIp
              | some dest_ip =>
                .ok { dest_port := dest_port, interface_ip := interface_ip, dest_ip := dest_ip }

end iplink

/-! ### src/src/protocol/tcp/socket.rs

The per-socket handshake state machine.  `Arc<Router>` handles are
external; the success of each `router.send` is an explicit `send_ok`
parameter.  Sequence numbers are `u32`: additions are reduced modulo
2 to the 32. -/

structure Port where
  val : Nat
deriving DecidableEq, Repr

/-- The fields of `etherparse::TcpHeader` that the sources read or
write; `TcpHeader::new` zero-initialises everything but the four
arguments. -/
structure TcpHeader where
  source_port : Nat
  destination_port : Nat
  sequence_number : Nat
  acknowledgment_number : Nat
  syn : Bool
  ack : Bool
  window_size : Nat
deriving DecidableEq, Repr

def TcpHeader.new (source_port destination_port sequence_number window_size : Nat) : TcpHeader :=
  { source_port := source_port
    destination_port := destination_port
    sequence_number := sequence_number
    acknowledgment_number := 0
    syn := false
    ack := false
    window_size := window_size }

inductive TransportError where
  | DestUnreachable (ip : Ipv4Addr)
deriving DecidableEq, Repr

structure Closed where
  seq_no : Nat
deriving DecidableEq, Repr

/-- `Closed::gen_rand_seq_no`: `thread_rng().gen_range(0..u16::MAX)`
samples uniformly from the half-open range `[0, 65535)`; the rng draw
is modelled as an arbitrary natural reduced into that range. -/
def Closed.gen_rand_seq_no (rng_draw : Nat) : Nat :=
  rng_draw % 65535

/-- `Closed::new`, with the rng draw made explicit. -/
def Closed.new (rng_draw : Nat) : Closed :=
  { seq_no := Closed.gen_rand_seq_no rng_draw }

/-- `Closed::make_syn_packet`: a fresh header carrying `seq_no` with the
syn flag set. -/
def Closed.make_syn_packet (s : Closed) (src_port dest_port : Port) : TcpHeader :=
  let header := TcpHeader.new src_port.val dest_port.val s.seq_no TCP_DEFAULT_WINDOW_SZ
  { header with syn := true }

structure SynSent where
  seq_no : Nat
  src_port : Port
  dest_ip : Ipv4Addr
  dest_port : Port
deriving DecidableEq, Repr

/-- `Closed::connect`: send the SYN packet; on datagram failure report
`DestUnreachable`, otherwise move to `SynSent` keeping `seq_no`.  The
sent packet is returned alongside the outcome. -/
def Closed.connect (s : Closed) (src_port : Port) (dest : Ipv4Addr × Port)
    (send_ok : Bool) : TcpHeader × Except TransportError SynSent :=
  let (dest_ip, dest_port) := dest
  let syn_pkt := s.make_syn_packet src_port dest_port
  if send_ok then
    (syn_pkt, .ok { seq_no := s.seq_no, src_port := src_port, dest_ip := dest_ip, dest_port := dest_port })
  else
    (syn_pkt, .error (.DestUnreachable dest_ip))

structure Established where
  seq_no : Nat
  src_port : Port
  dest_ip : Ipv4Addr
  dest_port : Port
  last_ack_no : Nat
deriving DecidableEq, Repr

/-- `SynSent::make_ack_packet`: increments the stored `seq_no`, then
builds a header with both syn and ack flags set whose acknowledgment
number is the peer acknowledgment number plus one.  Returns the packet
and the mutated state. -/
def SynSent.make_ack_packet (s : SynSent) (syn_ack_packet : TcpHeader) : TcpHeader × SynSent :=
  let s := { s with seq_no := (s.seq_no + 1) % 2 ^ 32 }
  let header := TcpHeader.new s.src_port.val s.dest_port.val s.seq_no TCP_DEFAULT_WINDOW_SZ
  let header := { header with
    syn := true
    ack := true
    acknowledgment_number := (syn_ack_packet.acknowledgment_number + 1) % 2 ^ 32 }
  (header, s)

inductive EstablishResult where
  | panicked (msg : String)
  | destUnreachable (ip : Ipv4Addr)
  | established (st : Established) (ack_pkt : TcpHeader)
deriving DecidableEq, Repr

/-- `SynSent::establish`: asserts the ack flag, sends the reply built by
`make_ack_packet`, and moves to `Established`.  No field of the incoming
segment other than the ack flag is inspected before the transition. -/
def SynSent.establish (s : SynSent) (syn_ack_packet : TcpHeader) (send_ok : Bool) : EstablishResult :=
  if ¬ syn_ack_packet.ack then
    .panicked "assertion failed: syn_ack_packet.ack()"
  else
    let (ack_pkt, s) := s.make_ack_packet syn_ack_packet
    if ¬ send_ok then
      .destUnreachable s.dest_ip
    else
      .established
        { seq_no := s.seq_no
          src_port := s.src_port
          dest_ip := s.dest_ip
          dest_port := s.dest_port
          last_ack_no := syn_ack_packet.acknowledgment_number }
        ack_pkt

/-! ### src/src/protocol/tcp/mod.rs: the socket table

`SocketId`, `SocketDescriptor` and `Remote` live in
src/src/protocol/tcp/prelude.rs, which is not under src/.  Modelled
from the spec: a `SocketId` is either `Listen(local_port)` or
`Connection(local_port, remote_vip, remote_port)`, and a
`SocketDescriptor` is a monotonic integer assigned by the socket table
(its integer width is not fixed here, so the usize conversion in
`allocate_socket_descriptor` always succeeds).  Hash maps are modelled
as association lists keyed by decidable equality. -/

structure Remote where
  ip : Ipv4Addr
  port : Port
deriving DecidableEq, Repr

inductive SocketId where
  | Listen (local_port : Port)
  | Connection (local_port : Port) (remote_ip : Ipv4Addr) (remote_port : Port)
deriving DecidableEq, Repr

/-- `SocketId::for_listen_socket`. -/
def SocketId.for_listen_socket (p : Port) : SocketId := .Listen p

/-- `SocketId::remote` (prelude.rs): the remote endpoint of a
connection id; listen ids carry no remote, and the sources only call
this on connection ids. -/
def SocketId.remote : SocketId → Remote
  | .Connection _ ip p => { ip := ip, port := p }
  | .Listen p => { ip := ⟨0, 0, 0, 0⟩, port := p }

/-- The table-relevant state of `Socket<N>`: its id and descriptor (the
buffers, channels and router handle do not bear on the claims). -/
structure Socket where
  id : SocketId
  descriptor : Nat
deriving DecidableEq, Repr

/-- `SocketTable<N>` with its owned `SocketBuilder` inlined
(`next_socket_descriptor` and `next_port` are the builder fields). -/
structure SocketTable where
  socket_id_map : List (Nat × SocketId)
  socket_map : List (SocketId × Socket)
  next_socket_descriptor : Nat
  next_port : Nat
deriving DecidableEq, Repr

/-- `SocketTable::new` over a fresh `SocketBuilder` (`next_port = 1024`,
`next_socket_descriptor = 0`). -/
def SocketTable.new : SocketTable :=
  { socket_id_map := []
    socket_map := []
    next_socket_descriptor := 0
    next_port := 1024 }

/-- Outcome of `SocketTable::insert`: `Ok`, `Err(ConnectionExists)`, or
the `expect("Found duplicate socket descriptor")` panic. -/
inductive TableResult where
  | ok (t : SocketTable)
  | connectionExists (t : SocketTable) (id : SocketId)
  | panicked (msg : String)
deriving DecidableEq, Repr

/-- `SocketTable::insert`: `try_insert` into `socket_map` (failure is
`ConnectionExists`), then `try_insert` into `socket_id_map` whose
failure is the duplicate-descriptor panic. -/
def SocketTable.insert (t : SocketTable) (descriptor : Nat) (socket : Socket) : TableResult :=
  let socket_id := socket.id
  match t.socket_map.lookup socket_id with
  | some _ => .connectionExists t socket_id
  | none =>
    let t1 := { t with socket_map := t.socket_map ++ [(socket_id, socket)] }
    match t1.socket_id_map.lookup descriptor with
    | some _ => .panicked "Found duplicate socket descriptor"
    | none => .ok { t1 with socket_id_map := t1.socket_id_map ++ [(descriptor, socket_id)] }

/-- `SocketBuilder::allocate_socket_descriptor`. -/
def SocketTable.allocate_socket_descriptor (t : SocketTable) : Nat × SocketTable :=
  (t.next_socket_descriptor, { t with next_socket_descriptor := t.next_socket_descriptor + 1 })

/-- `SocketBuilder::make_socket_id`: a connection id on the next
ephemeral local port. -/
def SocketTable.make_socket_id (t : SocketTable) (remote : Remote) : SocketId × SocketTable :=
  (SocketId.Connection ⟨t.next_port⟩ remote.ip remote.port, { t with next_port := t.next_port + 1 })

/-- `SocketBuilder::build_with_id`. -/
def SocketTable.build_with_id (t : SocketTable) (socket_id : SocketId) : (Nat × Socket) × SocketTable :=
  let (descriptor, t) := t.allocate_socket_descriptor
  ((descriptor, { id := socket_id, descriptor := descriptor }), t)

/-- `SocketTable::add_new_socket`; the id of the built socket is
returned for reference alongside the insert outcome. -/
def SocketTable.add_new_socket (t : SocketTable) (remote : Remote) : TableResult × SocketId :=
  let (sock_id, t) := t.make_socket_id remote
  let ((descriptor, socket), t) := t.build_with_id sock_id
  (t.insert descriptor socket, sock_id)

/-- `SocketTable::add_new_listen_socket`. -/
def SocketTable.add_new_listen_socket (t : SocketTable) (local_port : Port) : TableResult :=
  let ((descriptor, socket), t) := t.build_with_id (SocketId.for_listen_socket local_port)
  t.insert descriptor socket

/-- `SocketTable::add_new_syn_recvd_socket`. -/
def SocketTable.add_new_syn_recvd_socket (t : SocketTable) (remote : Remote) (local_port : Port) : TableResult :=
  let sock_id := SocketId.Connection local_port remote.ip remote.port
  let (descriptor, t) := t.allocate_socket_descriptor
  t.insert descriptor { id := sock_id, descriptor := descriptor }

/-- `SocketTable::remove_by_id`: removes from `socket_map` only; the
source leaves `socket_id_map` entries to be deleted lazily. -/
def SocketTable.remove_by_id (t : SocketTable) (id : SocketId) : SocketTable :=
  { t with socket_map := t.socket_map.filter (fun kv => ¬ kv.1 = id) }

def SocketTable.get_socket_by_id (t : SocketTable) (id : SocketId) : Option Socket :=
  t.socket_map.lookup id

def SocketTable.get_socket_by_descriptor (t : SocketTable) (descriptor : Nat) : Option Socket :=
  (t.socket_id_map.lookup descriptor).bind fun sock_id => t.socket_map.lookup sock_id

def SocketTable.get_listener_socket (t : SocketTable) (port : Port) : Option Socket :=
  t.get_socket_by_id (SocketId.for_listen_socket port)

inductive TcpConnError where
  | ConnectionExists (r : Remote)
  | Transport (e : TransportError)
  | Timeout
deriving DecidableEq, Repr

/-- `Tcp::connect`: allocate and insert a connection socket, send the
SYN (`initiate_connection`), then wait on the completion channel.  The
channel outcome is the `on_connected` parameter.  On a channel error
the socket is removed by id before the error is returned.  `none`
models a panic inside the call (unreachable from a well-formed
table). -/
def Tcp.connect (t : SocketTable) (remote : Remote) (on_connected : Except TcpConnError Unit) :
    Option (SocketTable × Except TcpConnError SocketId) :=
  match t.add_new_socket remote with
  | (.connectionExists t1 sid, _) => some (t1, .error (.ConnectionExists sid.remote))
  | (.panicked _, _) => none
  | (.ok t1, sock_id) =>
    match on_connected with
    | .ok () => some (t1, .ok sock_id)
    | .error e => some (t1.remove_by_id sock_id, .error e)

/-! ### src/src/protocol/tcp/mod.rs: the inbound packet handler

`TcpHandler::handle_packet` receives the IP header (already parsed by
the forwarding plane) and the raw TCP segment bytes.  Bytes are
naturals below 256. -/

/-- The fields of `etherparse::Ipv4HeaderSlice` that the handler reads. -/
structure Ipv4HeaderSlice where
  source_addr : Ipv4Addr
  destination_addr : Ipv4Addr
deriving DecidableEq, Repr

/-- Byte `i` of a byte list (reads are always in bounds where used). -/
def byteAt (bs : List Nat) (i : Nat) : Nat := bs.getD i 0

/-- Big-endian 16-bit read. -/
def rd16 (bs : List Nat) (i : Nat) : Nat := byteAt bs i * 256 + byteAt bs (i + 1)

/-- Big-endian 32-bit read. -/
def rd32 (bs : List Nat) (i : Nat) : Nat := rd16 bs i * 65536 + rd16 bs (i + 2)

/-- The parsed view `etherparse::TcpHeaderSlice` exposes, with the
data offset kept for locating the payload. -/
structure TcpHeaderSliceRec where
  data_offset : Nat
  source_port : Nat
  destination_port : Nat
  sequence_number : Nat
  acknowledgment_number : Nat
  syn : Bool
  ack : Bool
  window_size : Nat
  checksum : Nat
deriving DecidableEq, Repr

/-- `TcpHeaderSlice::from_slice`: fails when fewer than 20 bytes are
present, when the data offset is below 5, or when the slice is shorter
than the header length the offset announces.  Flag bits live in byte
13 (syn is bit 1, ack is bit 4). -/
def TcpHeaderSlice.from_slice (bs : List Nat) : Option TcpHeaderSliceRec :=
  if bs.length < 20 then none
  else
    let doff := byteAt bs 12 / 16
    if doff < 5 then none
    else if bs.length < doff * 4 then none
    else some
      { data_offset := doff
        source_port := rd16 bs 0
        destination_port := rd16 bs 2
        sequence_number := rd32 bs 4
        acknowledgment_number := rd32 bs 8
        syn := (byteAt bs 13).testBit 1
        ack := (byteAt bs 13).testBit 4
        window_size := rd16 bs 14
        checksum := rd16 bs 16 }

/-- Big-endian 16-bit words of a byte list, the trailing odd byte
padded with zero. -/
def toWords : List Nat → List Nat
  | [] => []
  | [a] => [a * 256]
  | a :: b :: rest => (a * 256 + b) :: toWords rest

/-- RFC 1071 internet checksum: ones-complement sum of the 16-bit
words, carries folded back in, then complemented. -/
def internetChecksum (bs : List Nat) : Nat :=
  let s := (toWords bs).foldl (· + ·) 0
  let s := s % 65536 + s / 65536
  let s := s % 65536 + s / 65536
  let s := s % 65536 + s / 65536
  65535 - s % 65536

/-- The IPv4 pseudo header for TCP: source, destination, a zero byte,
protocol 6, and the TCP length. -/
def pseudoHeaderBytes (src dst : Ipv4Addr) (tcp_len : Nat) : List Nat :=
  [src.o1, src.o2, src.o3, src.o4, dst.o1, dst.o2, dst.o3, dst.o4,
   0, 6, tcp_len / 256, tcp_len % 256]

/-- The segment with its checksum field (bytes 16 and 17) zeroed, as
checksum computation requires. -/
def zeroChecksumBytes (bs : List Nat) : List Nat :=
  bs.mapIdx fun i b => if i = 16 ∨ i = 17 then 0 else b

/-- `TcpHeader::calc_checksum_ipv4` applied to the raw segment: checksum
over the pseudo header followed by the segment with a zeroed checksum
field. -/
def calc_checksum_ipv4 (ip_header : Ipv4HeaderSlice) (segment : List Nat) : Nat :=
  internetChecksum
    (pseudoHeaderBytes ip_header.source_addr ip_header.destination_addr segment.length
      ++ zeroChecksumBytes segment)

/-- What `TcpHandler::handle_packet` does with a segment, up to the
dispatch decision: panic, silent checksum drop (log only, no reply, no
table access), drop of a segment matching no connection and no
listener (log only), or delivery to the owning socket. -/
inductive HandleOutcome where
  | panicked (msg : String)
  | checksumDrop
  | noSocketDrop
  | deliveredToConnection (id : SocketId)
  | deliveredToListener (port : Port)
deriving DecidableEq, Repr

/-- `TcpHandler::handle_packet`: parse the TCP header with
`expect("Failed to parse TCP Header")`, verify the checksum, then look
up the connection socket and fall back to the listener socket. -/
def TcpHandler.handle_packet (ip_header : Ipv4HeaderSlice) (payload : List Nat)
    (t : SocketTable) : HandleOutcome :=
  match TcpHeaderSlice.from_slice payload with
  | none => .panicked "Failed to parse TCP Header"
  | some tcp_header =>
    let sock_id := SocketId.Connection ⟨tcp_header.destination_port⟩
      ip_header.source_addr ⟨tcp_header.source_port⟩
    if tcp_header.checksum ≠ calc_checksum_ipv4 ip_header payload then
      .checksumDrop
    else
      match t.get_socket_by_id sock_id with
      | some _ => .deliveredToConnection sock_id
      | none =>
        match t.get_listener_socket ⟨tcp_header.destination_port⟩ with
        | some _ => .deliveredToListener ⟨tcp_header.destination_port⟩
        | none => .noSocketDrop

/-! ### Socket-table operation sequences

Every path in the sources that inserts a socket goes through
`SocketBuilder::allocate_socket_descriptor`: `Tcp::connect` via
`add_new_socket`, `Tcp::listen` via `add_new_listen_socket`, and the
dispatcher via `add_new_syn_recvd_socket`; removal goes through
`remove_by_id`.  `step` runs one such operation and reports the list
of descriptors allocated by it; `none` models a panic. -/

inductive TableOp where
  | connectOp (r : Remote) (outcome : Except TcpConnError Unit)
  | listenOp (p : Port)
  | synRecvdOp (r : Remote) (lp : Port)
  | removeOp (id : SocketId)
deriving Repr

def SocketTable.step (t : SocketTable) (op : TableOp) : Option (SocketTable × List Nat) :=
  match op with
  | .connectOp r outcome =>
    match Tcp.connect t r outcome with
    | some (t1, _) => some (t1, [t.next_socket_descriptor])
    | none => none
  | .listenOp p =>
    match t.add_new_listen_socket p with
    | .ok t1 => some (t1, [t.next_socket_descriptor])
    | .connectionExists t1 _ => some (t1, [t.next_socket_descriptor])
    | .panicked _ => none
  | .synRecvdOp r lp =>
    match t.add_new_syn_recvd_socket r lp with
    | .ok t1 => some (t1, [t.next_socket_descriptor])
    | .connectionExists t1 _ => some (t1, [t.next_socket_descriptor])
    | .panicked _ => none
  | .removeOp id => some (t.remove_by_id id, [])

/-- Run a sequence of table operations, collecting the chronological
list of allocated descriptors; `none` as soon as any step panics. -/
def SocketTable.run (t : SocketTable) (ops : List TableOp) : Option (SocketTable × List Nat) :=
  match ops with
  | [] => some (t, [])
  | op :: rest =>
    match t.step op with
    | none => none
    | some (t1, ds) =>
      match t1.run rest with
      | none => none
      | some (t2, ds2) => some (t2, ds ++ ds2)

/-- Every descriptor keyed in `socket_id_map` is below the allocation
counter.  `SocketTable.new` satisfies this and every operation
preserves it. -/
def SocketTable.descriptorsBelowNext (t : SocketTable) : Prop :=
  ∀ kv ∈ t.socket_id_map, kv.1 < t.next_socket_descriptor

/-! ### src/src/cli/mod.rs and src/src/cli/parse.rs -/

namespace cli

inductive TcpShutdownKind where
  | Read
  | Write
  | ReadWrite
deriving DecidableEq, Repr

/-- The REPL command surface.  `SocketDescriptor` arguments are the
parsed integers; the `s` payload keeps the token whose UTF-8 bytes the
source stores. -/
inductive Command where
  | ListInterface (f : Option String)
  | ListRoute (f : Option String)
  | ListSockets (f : Option String)
  | InterfaceDown (link_no : Nat)
  | InterfaceUp (link_no : Nat)
  | SendIPv4Packet (virtual_ip : Ipv4Addr) (protocol : Protocol) (payload : String)
  | SendTCPPacket (sid : Nat) (payload : String)
  | OpenListenSocket (p : Port)
  | ConnectSocket (ip : Ipv4Addr) (p : Port)
  | ReadSocket (descriptor : Nat) (num_bytes : Nat) (would_block : Bool)
  | Shutdown (sid : Nat) (kind : TcpShutdownKind)
  | Close (sid : Nat)
  | SendFile (path : String) (dest_ip : Ipv4Addr) (p : Port)
  | RecvFile (out_path : String) (p : Port)
  | Quit
  | None
deriving DecidableEq, Repr

inductive ParseDownError where
  | InvalidLinkId
  | NoLinkId
deriving DecidableEq, Repr

inductive ParseUpError where
  | InvalidLinkId
  | NoLinkId
deriving DecidableEq, Repr

inductive ParseSendError where
  | NoIp
  | InvalidIp
  | NoProtocol
  | InvalidProtocol
  | NoPayload
deriving DecidableEq, Repr

inductive ParseOpenListenSocketError where
  | NoPort
  | InvalidPort
deriving DecidableEq, Repr

inductive ParseConnectError where
  | NoIp
  | InvalidIp
  | NoPort
  | InvalidPort
deriving DecidableEq, Repr

inductive ParseTcpSendError where
  | NoSocketDescriptor
  | InvalidSocketDescriptor
  | NoPayload
deriving DecidableEq, Repr

inductive ParseTcpReadError where
  | NoSocketDescriptor
  | InvalidSocketDescriptor
  | NoNumBytesToRead
  | InvalidNumBytesToRead
  | InvalidBlockingIndicator
deriving DecidableEq, Repr

inductive ParseTcpShutdownError where
  | NoSocketDescriptor
  | InvalidSocketDescriptor
  | InvalidShutdownType (s : String)
deriving DecidableEq, Repr

inductive ParseCloseError where
  | NoSocketDescriptor
  | InvalidSocketDescriptor
deriving DecidableEq, Repr

inductive ParseSendFileError where
  | NoFile
  | NoIp
  | InvalidIp
  | NoPort
  | InvalidPort
deriving DecidableEq, Repr

inductive ParseRecvFileError where
  | NoFile
  | NoPort
  | InvalidPort
deriving DecidableEq, Repr

inductive ParseError where
  | Unknown
  | Down (e : ParseDownError)
  | Up (e : ParseUpError)
  | Send (e : ParseSendError)
  | OpenListenSocket (e : ParseOpenListenSocketError)
  | Connect (e : ParseConnectError)
  | TcpSend (e : ParseTcpSendError)
  | TcpRead (e : ParseTcpReadError)
  | TcpShutdown (e : ParseTcpShutdownError)
  | TcpClose (e : ParseCloseError)
  | SendFile (e : ParseSendFileError)
  | RecvFile (e : ParseRecvFileError)
deriving DecidableEq, Repr

end cli

/-- `impl TryFrom<&str> for Protocol`: parse the byte then convert. -/
def Protocol.try_from_str (value : String) : Except ParseProtocolError Protocol :=
  match parse_u8 value with
  | none => .error .Unsupported
  | some v => Protocol.try_from v

namespace cli

/-- `parse_cmd`: dispatch on the command word with `tokens` the
remaining whitespace-separated tokens in order.  The width of the
socket-descriptor integer type lives in prelude.rs (absent from src)
and is modelled as usize; no claim proved here depends on it. -/
def parse_cmd (cmd : String) (tokens : List String) : Except ParseError Command :=
  match cmd with
  | "li" =>
    match tokens with
    | arg :: _ => .ok (.ListInterface (some arg))
    | [] => .ok (.ListInterface none)
  | "interfaces" =>
    match tokens with
    | arg :: _ => .ok (.ListInterface (some arg))
    | [] => .ok (.ListInterface none)
  | "lr" =>
    match tokens with
    | arg :: _ => .ok (.ListRoute (some arg))
    | [] => .ok (.ListRoute none)
  | "routes" =>
    match tokens with
    | arg :: _ => .ok (.ListRoute (some arg))
    | [] => .ok (.ListRoute none)
  | "down" =>
    match tokens with
    | arg :: _ =>
      match parse_u16 arg with
      | some link_no => .ok (.InterfaceDown link_no)
      | none => .error (.Down .InvalidLinkId)
    | [] => .error (.Down .NoLinkId)
  | "up" =>
    match tokens with
    | arg :: _ =>
      match parse_u16 arg with
      | some link_no => .ok (.InterfaceUp link_no)
      | none => .error (.Up .InvalidLinkId)
    | [] => .error (.Up .NoLinkId)
  | "send" =>
    match tokens with
    | [] => .error (.Send .NoIp)
    | virtual_ip :: rest =>
      match rest with
      | [] => .error (.Send .NoProtocol)
      | protocol :: rest2 =>
        let payload := String.join rest2
        if payload = "" then .error (.Send .NoPayload)
        else
          match parse_ipv4 virtual_ip with
          | none => .error (.Send .InvalidIp)
          | some ip =>
            match Protocol.try_from_str protocol with
            | .error _ => .error (.Send .InvalidProtocol)
            | .ok proto => .ok (.SendIPv4Packet ip proto payload)
  | "ls" =>
    match tokens with
    | arg :: _ => .ok (.ListSockets (some arg))
    | [] => .ok (.ListSockets none)
  | "a" =>
    match tokens with
    | [] => .error (.OpenListenSocket .NoPort)
    | arg :: _ =>
      match parse_u16 arg with
      | none => .error (.OpenListenSocket .InvalidPort)
      | some port => .ok (.OpenListenSocket ⟨port⟩)
  | "c" =>
    match tokens with
    | [] => .error (.Connect .NoIp)
    | ipTok :: rest =>
      match parse_ipv4 ipTok with
      | none => .error (.Connect .InvalidIp)
      | some ip =>
        match rest with
        | [] => .error (.Connect .NoPort)
        | portTok :: _ =>
          match parse_u16 portTok with
          | none => .error (.Connect .InvalidPort)
          | some port => .ok (.ConnectSocket ip ⟨port⟩)
  | "s" =>
    match tokens with
    | [] => .error (.TcpSend .NoSocketDescriptor)
    | sidTok :: rest =>
      match parse_usize sidTok with
      | none => .error (.TcpSend .InvalidSocketDescriptor)
      | some sid =>
        match rest with
        | [] => .error (.TcpSend .NoPayload)
        | payload :: _ => .ok (.SendTCPPacket sid payload)
  | "r" =>
    match tokens with
    | [] => .error (.TcpRead .NoSocketDescriptor)
    | sidTok :: rest =>
      match parse_usize sidTok with
      | none => .error (.TcpRead .InvalidSocketDescriptor)
      | some sid =>
        match rest with
        | [] => .error (.TcpRead .NoNumBytesToRead)
        | nTok :: rest2 =>
          match parse_usize nTok with
          | none => .error (.TcpRead .InvalidNumBytesToRead)
          | some num_bytes =>
            match rest2 with
            | [] => .ok (.ReadSocket sid num_bytes false)
            | "y" :: _ => .ok (.ReadSocket sid num_bytes true)
            | "N" :: _ => .ok (.ReadSocket sid num_bytes false)
            | _ :: _ => .error (.TcpRead .InvalidBlockingIndicator)
  | "sd" =>
    match tokens with
    | [] => .error (.TcpShutdown .NoSocketDescriptor)
    | sidTok :: rest =>
      match parse_usize sidTok with
      | none => .error (.TcpShutdown .InvalidSocketDescriptor)
      | some sid =>
        match rest with
        | [] => .ok (.Shutdown sid .Write)
        | "w" :: _ => .ok (.Shutdown sid .Write)
        | "write" :: _ => .ok (.Shutdown sid .Write)
        | "r" :: _ => .ok (.Shutdown sid .Read)
        | "read" :: _ => .ok (.Shutdown sid .Read)
        | "both" :: _ => .ok (.Shutdown sid .ReadWrite)
        | tok :: _ => .error (.TcpShutdown (.InvalidShutdownType tok))
  | "cl" =>
    match tokens with
    | [] => .error (.TcpClose .NoSocketDescriptor)
    | sidTok :: _ =>
      match parse_usize sidTok with
      | none => .error (.TcpClose .InvalidSocketDescriptor)
      | some sid => .ok (.Close sid)
  | "sf" =>
    match tokens with
    | [] => .error (.SendFile .NoFile)
    | filename :: rest =>
      match rest with
      | [] => .error (.SendFile .NoIp)
      | ipTok :: rest2 =>
        match parse_ipv4 ipTok with
        | none => .error (.SendFile .InvalidIp)
        | some ip =>
          match rest2 with
          | [] => .error (.SendFile .NoPort)
          | portTok :: _ =>
            match parse_u16 portTok with
            | none => .error (.SendFile .InvalidPort)
            | some port => .ok (.SendFile filename ip ⟨port⟩)
  | "rf" =>
    match tokens with
    | [] => .error (.RecvFile .NoFile)
    | filename :: rest =>
      match rest with
      | [] => .error (.RecvFile .NoPort)
      | portTok :: _ =>
        match parse_u16 portTok with
        | none => .error (.RecvFile .InvalidPort)
        | some port => .ok (.RecvFile filename ⟨port⟩)
  | "q" => .ok .Quit
  | _ => .error .Unknown

/-- `parse_command`: an empty token stream is `Command::None`. -/
def parse_command (line : String) : Except ParseError Command :=
  match split_whitespace line with
  | [] => .ok .None
  | cmd :: tokens => parse_cmd cmd tokens

/-- Derived `Debug` strings of the per-command error enums, as
`{e:?}` formats them. -/
def ParseDownError.debugStr : ParseDownError → String
  | .InvalidLinkId => "InvalidLinkId"
  | .NoLinkId => "NoLinkId"

def ParseUpError.debugStr : ParseUpError → String
  | .InvalidLinkId => "InvalidLinkId"
  | .NoLinkId => "NoLinkId"

def ParseSendError.debugStr : ParseSendError → String
  | .NoIp => "NoIp"
  | .InvalidIp => "InvalidIp"
  | .NoProtocol => "NoProtocol"
  | .InvalidProtocol => "InvalidProtocol"
  | .NoPayload => "NoPayload"

def ParseOpenListenSocketError.debugStr : ParseOpenListenSocketError → String
  | .NoPort => "NoPort"
  | .InvalidPort => "InvalidPort"

def ParseConnectError.debugStr : ParseConnectError → String
  | .NoIp => "NoIp"
  | .InvalidIp => "InvalidIp"
  | .NoPort => "NoPort"
  | .InvalidPort => "InvalidPort"

def ParseTcpSendError.debugStr : ParseTcpSendError → String
  | .NoSocketDescriptor => "NoSocketDescriptor"
  | .InvalidSocketDescriptor => "InvalidSocketDescriptor"
  | .NoPayload => "NoPayload"

def ParseTcpReadError.debugStr : ParseTcpReadError → String
  | .NoSocketDescriptor => "NoSocketDescriptor"
  | .InvalidSocketDescriptor => "InvalidSocketDescriptor"
  | .NoNumBytesToRead => "NoNumBytesToRead"
  | .InvalidNumBytesToRead => "InvalidNumBytesToRead"
  | .InvalidBlockingIndicator => "InvalidBlockingIndicator"

def ParseTcpShutdownError.debugStr : ParseTcpShutdownError → String
  | .NoSocketDescriptor => "NoSocketDescriptor"
  | .InvalidSocketDescriptor => "InvalidSocketDescriptor"
  | .InvalidShutdownType s => "InvalidShutdownType(\"" ++ s ++ "\")"

def ParseCloseError.debugStr : ParseCloseError → String
  | .NoSocketDescriptor => "NoSocketDescriptor"
  | .InvalidSocketDescriptor => "InvalidSocketDescriptor"

def ParseSendFileError.debugStr : ParseSendFileError → String
  | .NoFile => "NoFile"
  | .NoIp => "NoIp"
  | .InvalidIp => "InvalidIp"
  | .NoPort => "NoPort"
  | .InvalidPort => "InvalidPort"

def ParseRecvFileError.debugStr : ParseRecvFileError → String
  | .NoFile => "NoFile"
  | .NoPort => "NoPort"
  | .InvalidPort => "InvalidPort"

/-- `impl Display for ParseError`: the diagnostic the REPL prints via
`eprintln!` on a parse failure. -/
def ParseError.display : ParseError → String
  | .Unknown => "Unknown command"
  | .Down e => "Invalid down command. Usage: down <integer>. Error: " ++ e.debugStr
  | .Up e => "Invalid up command. Usage: up <integer>. Error: " ++ e.debugStr
  | .Send e => "Invalid send command. Usage: send <vip> <proto> <string>. Error: " ++ e.debugStr
  | .OpenListenSocket e => "Invalid open socket command. Usage: a <port>. Error: " ++ e.debugStr
  | .Connect e => "Invalid connect command. Usage: c <ip> <port>. Error: " ++ e.debugStr
  | .TcpSend e => "Invalid send command. Usage: s <socket_id> <data>. Error: " ++ e.debugStr
  | .TcpRead e => "Invalid read command. Usage: r <socket ID> <numbytes> <y|N>. Error: " ++ e.debugStr
  | .TcpShutdown e => "Invalid shutdown command. Usage: sd <socket ID> <read|write|both>. Error: " ++ e.debugStr
  | .TcpClose e => "Invalid close command. Usage: cl <socket ID>. Error: " ++ e.debugStr
  | .SendFile e => "Invalid send file command. Usage: sf <filename> <ip> <port>. Error: " ++ e.debugStr
  | .RecvFile e => "Invalid receive file command. Usage: rf <filename> <port>. Error: " ++ e.debugStr

/-- `crate::repl::HandleUserInputError`.  Modelled from the spec: the
repl module is not under src/; its only constructor used by the CLI is
the terminate signal returned for `q`. -/
inductive HandleUserInputError where
  | Terminate
deriving DecidableEq, Repr

/-- The observable effect of one `Cli::handle` call besides its return
value: nothing, execution of a command, or an `eprintln!` diagnostic. -/
inductive HandleEffect where
  | noop
  | execute (c : Command)
  | diagnose (msg : String)
deriving DecidableEq, Repr

/-- `Cli::handle`: quit terminates the REPL by returning
`Err(Terminate)`; `Command::None` does nothing; other commands are
executed; parse errors print the `Display` diagnostic and return
`Ok(())` so the REPL continues. -/
def Cli.handle (user_input : String) : Except HandleUserInputError Unit × HandleEffect :=
  match parse_command user_input with
  | .ok .Quit => (.error .Terminate, .noop)
  | .ok .None => (.ok (), .noop)
  | .ok cmd => (.ok (), .execute cmd)
  | .error e => (.ok (), .diagnose e.display)

end cli

/-! ### Concrete inputs for counterexamples and witnesses -/

/-- A remote endpoint 10.0.0.2:5656 used by the connect scenarios. -/
def exRemote : Remote := { ip := ⟨10, 0, 0, 2⟩, port := ⟨5656⟩ }

/-- A `SynSent` socket whose initial send sequence number is 100. -/
def exSynSent : SynSent :=
  { seq_no := 100, src_port := ⟨1024⟩, dest_ip := ⟨10, 0, 0, 2⟩, dest_port := ⟨5656⟩ }

/-- A SYN+ACK segment whose acknowledgment number 999 differs from
`iss + 1 = 101`. -/
def exBadSynAck : TcpHeader :=
  { source_port := 5656
    destination_port := 1024
    sequence_number := 7777
    acknowledgment_number := 999
    syn := true
    ack := true
    window_size := 65535 }

/-- An IP header slice for a segment from 10.0.0.2 to 10.0.0.1. -/
def exIpHeader : Ipv4HeaderSlice :=
  { source_addr := ⟨10, 0, 0, 2⟩, destination_addr := ⟨10, 0, 0, 1⟩ }

/-- A link on the ip crate side, local vip 10.0.0.1, peer 10.0.0.2. -/
def exLink : iplink.Link :=
  { dest_port := 5000, dest_virtual_ip := ⟨10, 0, 0, 2⟩, src_virtual_ip := ⟨10, 0, 0, 1⟩ }

/-- The socket id a first connect to `exRemote` from a fresh table
allocates: local ephemeral port 1024. -/
def exAttemptId : SocketId := .Connection ⟨1024⟩ ⟨10, 0, 0, 2⟩ ⟨5656⟩

/-- The table left by `Tcp::connect SocketTable.new exRemote` when the
completion channel reports a timeout: the socket is gone from
`socket_map`, while the descriptor mapping lingers (the source leaves
`socket_id_map` to lazy deletion) and the counters have advanced. -/
def exTableAfterFailedConnect : SocketTable :=
  { socket_id_map := [(0, exAttemptId)]
    socket_map := []
    next_socket_descriptor := 1
    next_port := 1025 }

/-! ## Theorems -/

/-- C10: the compiled protocol limits and defaults equal the values the
spec states: window bound 65535 bytes, maximum segment payload 1024
bytes, pending-accept bound 1024, connection timeout 2 seconds, RIP
update interval 5 seconds, routing entry maximum age 12 seconds. -/
theorem constants_match_spec :
    TCP_DEFAULT_WINDOW_SZ = 65535 ∧
    MAX_SEGMENT_SZ = 1024 ∧
    MAX_PENDING_TCP_CONNECTIONS = 1024 ∧
    TCP_DEFAULT_CONNECTION_TIMEOUT_SECS = 2 ∧
    RIP_UPDATE_INTERVAL_SECS = 5 ∧
    ROUTING_ENTRY_MAX_AGE_SECS = 12 := by
  decide

/-- C7: `Protocol::try_from` on a byte succeeds exactly on 0, 6 and 200,
yielding Test, Tcp and Rip respectively, and converting the resulting
protocol back to a byte is the identity round trip. -/
theorem protocol_number_roundtrip :
    (∀ b : Fin 256, (Protocol.try_from b.val).isOk = true ↔ (b.val = 0 ∨ b.val = 6 ∨ b.val = 200)) ∧
    Protocol.try_from 0 = .ok .Test ∧
    Protocol.try_from 6 = .ok .Tcp ∧
    Protocol.try_from 200 = .ok .Rip ∧
    (∀ b : Fin 256, ∀ p : Protocol, Protocol.try_from b.val = .ok p → Protocol.into_u8 p = b.val) := by
  refine ⟨by decide, rfl, rfl, rfl, by decide⟩

/-- C7 witness at the concrete byte 6. -/
theorem protocol_number_roundtrip_witness :
    Protocol.into_u8 Protocol.Tcp = (6 : Fin 256).val :=
  protocol_number_roundtrip.2.2.2.2 6 Protocol.Tcp (by rfl)

/-- C2 counterexample: on the cited send path (src/ip/src/net/link.rs)
the constructed IPv4 header carries TTL 15, not 16, already on a
concrete RIP payload. -/
theorem link_send_ttl_is_not_16 :
    (exLink.send .RIP).1.time_to_live = 15 ∧ ¬ (exLink.send .RIP).1.time_to_live = 16 := by
  decide

/-- C2 (amended): for every payload and link, `Link::send` constructs an
IPv4 header with TTL 15 (the module constant), source address the
local virtual ip of the link, destination the peer virtual ip, and the
protocol number determined by the payload variant. -/
theorem link_send_header_fields (l : iplink.Link) (p : iplink.ProtocolPayload) :
    (l.send p).1.time_to_live = 15 ∧
    (l.send p).1.source = l.src_virtual_ip ∧
    (l.send p).1.destination = l.dest_virtual_ip ∧
    (l.send p).1.protocol = p.into_bytes.1 := by
  cases p <;> exact ⟨rfl, rfl, rfl, rfl⟩

/-- C5 counterexample: the value 65535, a valid u32 (indeed a valid
u16), is never produced as an initial sequence number, because
`gen_rand_seq_no` samples from the half-open range `[0, u16::MAX)`. -/
theorem gen_rand_seq_no_misses_u32_values :
    (¬ ∃ r : Nat, Closed.gen_rand_seq_no r = 65535) ∧ 65535 < 2 ^ 32 := by
  constructor
  · rintro ⟨r, h⟩
    unfold Closed.gen_rand_seq_no at h
    omega
  · decide

/-- C5 (amended): the initial sequence number of an active open is
drawn from `[0, 65534]` (all such values possible, none larger), and
the SYN packet `connect` sends carries `seq = iss` with the syn flag
set. -/
theorem iss_range_and_syn_seq :
    (∀ r : Nat, Closed.gen_rand_seq_no r < 65535) ∧
    (∀ v : Fin 65535, ∃ r : Nat, Closed.gen_rand_seq_no r = v.val) ∧
    (∀ r : Nat, ∀ sp dp : Port,
      ((Closed.new r).make_syn_packet sp dp).sequence_number = (Closed.new r).seq_no ∧
      ((Closed.new r).make_syn_packet sp dp).syn = true) ∧
    (∀ r : Nat, ∀ sp : Port, ∀ dest : Ipv4Addr × Port, ∀ send_ok : Bool,
      ((Closed.new r).connect sp dest send_ok).1 = (Closed.new r).make_syn_packet sp dest.2) := by
  refine ⟨fun r => Nat.mod_lt r (by decide),
    fun v => ⟨v.val, Nat.mod_eq_of_lt v.isLt⟩,
    fun r sp dp => ⟨rfl, rfl⟩,
    fun r sp dest send_ok => ?_⟩
  obtain ⟨di, dp⟩ := dest
  cases send_ok <;> rfl

/-- C1: evaluated at the failing input, a `SynSent` socket with
`iss = 100` that receives a SYN+ACK whose acknowledgment number is 999
(not `iss + 1 = 101`) still transitions to `Established` and sends its
ACK reply: `SynSent::establish` never compares the acknowledgment
number with `iss + 1`. -/
theorem synsent_establish_skips_ack_check :
    SynSent.establish exSynSent exBadSynAck true =
      .established
        { seq_no := 101, src_port := ⟨1024⟩, dest_ip := ⟨10, 0, 0, 2⟩,
          dest_port := ⟨5656⟩, last_ack_no := 999 }
        { source_port := 1024, destination_port := 5656, sequence_number := 101,
          acknowledgment_number := 1000, syn := true, ack := true, window_size := 65535 }
    ∧ ¬ exBadSynAck.acknowledgment_number = exSynSent.seq_no + 1 := by
  exact ⟨rfl, by decide⟩

/-- C3: evaluated at the failing input, `TcpHandler::handle_packet`
panics (`expect("Failed to parse TCP Header")`) on an empty TCP
payload instead of logging and dropping it. -/
theorem handle_packet_panics_on_short_payload :
    TcpHandler.handle_packet exIpHeader [] SocketTable.new =
      .panicked "Failed to parse TCP Header" := rfl

/-- Looking up a key after filtering out every pair carrying it yields
nothing. -/
theorem lookup_filter_key_none {α β : Type} [DecidableEq α]
    (l : List (α × β)) (k : α) :
    (l.filter fun kv => ¬ kv.1 = k).lookup k = none := by
  induction l with
  | nil => rfl
  | cons kv rest ih =>
    obtain ⟨k1, v1⟩ := kv
    by_cases hk : k1 = k
    · simpa [List.filter_cons, hk] using ih
    · have hb : (k == k1) = false := by
        simp [beq_eq_false_iff_ne]
        exact fun hkk => hk hkk.symm
      simp [List.filter_cons, hk, List.lookup, hb, ih]
      exact fun a b _ hne heq => hne heq.symm

/-- Appending a fresh binding makes it visible to lookup when the key
was previously absent. -/
theorem lookup_append_fresh {α β : Type} [DecidableEq α]
    (l : List (α × β)) (k : α) (v : β) (h : l.lookup k = none) :
    (l ++ [(k, v)]).lookup k = some v := by
  induction l with
  | nil => simp [List.lookup]
  | cons kv rest ih =>
    obtain ⟨k1, v1⟩ := kv
    by_cases hk : k = k1
    · simp [List.lookup, hk] at h
    · have hb : (k == k1) = false := by simp [beq_eq_false_iff_ne, hk]
      simp only [List.lookup, hb] at h
      simpa [List.cons_append, List.lookup, hb] using ih h

/-- C4 (amended): when `Tcp::connect` fails with `Timeout` or
`Transport`, the connection socket allocated for this attempt (socket
id on the fresh ephemeral local port) has been removed from
`socket_map` before the error is returned, so the table holds no
socket with that attempt's id; on success the socket remains in the
table.  (Connection sockets for the same remote created by earlier
connects are untouched.) -/
theorem connect_failure_removes_attempt_socket (t : SocketTable) (r : Remote) :
    (∀ t1, Tcp.connect t r (.error .Timeout) = some (t1, .error .Timeout) →
      t1.get_socket_by_id (SocketId.Connection ⟨t.next_port⟩ r.ip r.port) = none) ∧
    (∀ t1 te, Tcp.connect t r (.error (.Transport te)) = some (t1, .error (.Transport te)) →
      t1.get_socket_by_id (SocketId.Connection ⟨t.next_port⟩ r.ip r.port) = none) ∧
    (∀ t1 sid, Tcp.connect t r (.ok ()) = some (t1, .ok sid) →
      sid = SocketId.Connection ⟨t.next_port⟩ r.ip r.port ∧
      (t1.get_socket_by_id sid).isSome = true) := by
  refine ⟨?_, ?_, ?_⟩
  · intro t1 h
    simp only [Tcp.connect, SocketTable.add_new_socket, SocketTable.make_socket_id,
      SocketTable.build_with_id, SocketTable.allocate_socket_descriptor,
      SocketTable.insert] at h
    rcases hlk : t.socket_map.lookup (SocketId.Connection ⟨t.next_port⟩ r.ip r.port) with _ | s
    · simp only [hlk] at h
      rcases hlk2 : t.socket_id_map.lookup t.next_socket_descriptor with _ | sid2
      · simp only [hlk2, Option.some.injEq, Prod.mk.injEq] at h
        obtain ⟨h1, -⟩ := h
        subst h1
        simp [SocketTable.get_socket_by_id, SocketTable.remove_by_id, lookup_filter_key_none]
        exact fun a b _ hne heq => hne heq.symm
      · simp only [hlk2] at h
        cases h
    · simp only [hlk] at h
      simp at h
  · intro t1 te h
    simp only [Tcp.connect, SocketTable.add_new_socket, SocketTable.make_socket_id,
      SocketTable.build_with_id, SocketTable.allocate_socket_descriptor,
      SocketTable.insert] at h
    rcases hlk : t.socket_map.lookup (SocketId.Connection ⟨t.next_port⟩ r.ip r.port) with _ | s
    · simp only [hlk] at h
      rcases hlk2 : t.socket_id_map.lookup t.next_socket_descriptor with _ | sid2
      · simp only [hlk2, Option.some.injEq, Prod.mk.injEq] at h
        obtain ⟨h1, -⟩ := h
        subst h1
        simp [SocketTable.get_socket_by_id, SocketTable.remove_by_id, lookup_filter_key_none]
        exact fun a b _ hne heq => hne heq.symm
      · simp only [hlk2] at h
        cases h
    · simp only [hlk] at h
      simp at h
  · intro t1 sid h
    simp only [Tcp.connect, SocketTable.add_new_socket, SocketTable.make_socket_id,
      SocketTable.build_with_id, SocketTable.allocate_socket_descriptor,
      SocketTable.insert] at h
    rcases hlk : t.socket_map.lookup (SocketId.Connection ⟨t.next_port⟩ r.ip r.port) with _ | s
    · simp only [hlk] at h
      rcases hlk2 : t.socket_id_map.lookup t.next_socket_descriptor with _ | sid2
      · simp only [hlk2, Option.some.injEq, Prod.mk.injEq, Except.ok.injEq] at h
        obtain ⟨h1, h2⟩ := h
        subst h1
        subst h2
        refine ⟨rfl, ?_⟩
        simp [SocketTable.get_socket_by_id, lookup_append_fresh t.socket_map _ _ hlk]
      · simp only [hlk2] at h
        cases h
    · simp only [hlk] at h
      simp at h

/-- C4 witness: a timed-out connect on a fresh table leaves no socket
under the attempt's id. -/
theorem connect_failure_removes_attempt_socket_witness :
    exTableAfterFailedConnect.get_socket_by_id exAttemptId = none :=
  (connect_failure_removes_attempt_socket SocketTable.new exRemote).1
    exTableAfterFailedConnect rfl

/-- C4 counterexample: connect to `exRemote` succeeds (socket on local
port 1024 stays), then a second connect to the same remote times out;
after that failed connect the table still holds a connection socket
for that remote, so a failed connect does not imply the table holds no
connection socket for the remote. -/
theorem connect_failure_keeps_other_sockets_for_remote :
    ((Tcp.connect SocketTable.new exRemote (.ok ())).bind fun p =>
      (Tcp.connect p.1 exRemote (.error .Timeout)).map fun q =>
        (q.2, q.1.get_socket_by_id exAttemptId))
    = some (.error .Timeout, some { id := exAttemptId, descriptor := 0 }) := rfl

/-- C6 counterexample: a first field that does not parse as an IPv4
address is not rejected: `try_parse` accepts the line whenever the
remaining three fields are well formed, so a malformed peer datagram
ip is not reported as `MalformedIp`. -/
theorem try_parse_accepts_malformed_first_field :
    parse_ipv4 "999.999.999.999" = none ∧
    iplink.LinkDefinition.try_parse "999.999.999.999 5000 10.0.0.1 10.0.0.2" =
      .ok { dest_port := 5000, interface_ip := ⟨10, 0, 0, 1⟩, dest_ip := ⟨10, 0, 0, 2⟩ } :=
  ⟨rfl, rfl⟩

/-- C6 (amended): `LinkDefinition::try_parse` returns Ok exactly when
the line has at least four whitespace-separated fields whose second
parses as a 16-bit port and whose third and fourth parse as IPv4
addresses; the first field is only checked for presence, never
validated.  A missing field is reported as `NoIp`, `NoPort`,
`NoSrcVirtualIp` or `NoDstVirtualIp` at the first missing position, a
present but unparseable port as `MalformedPort`, and a present but
unparseable third or fourth field as `MalformedIp`. -/
theorem try_parse_characterized (raw : String) :
    ((iplink.LinkDefinition.try_parse raw).isOk = true ↔
      4 ≤ (split_whitespace raw).length ∧
      (parse_u16 ((split_whitespace raw).getD 1 "")).isSome = true ∧
      (parse_ipv4 ((split_whitespace raw).getD 2 "")).isSome = true ∧
      (parse_ipv4 ((split_whitespace raw).getD 3 "")).isSome = true) ∧
    (split_whitespace raw = [] →
      iplink.LinkDefinition.try_parse raw = .error .NoIp) ∧
    ((split_whitespace raw).length = 1 →
      iplink.LinkDefinition.try_parse raw = .error .NoPort) ∧
    (2 ≤ (split_whitespace raw).length →
      parse_u16 ((split_whitespace raw).getD 1 "") = none →
      iplink.LinkDefinition.try_parse raw = .error .MalformedPort) ∧
    ((split_whitespace raw).length = 2 →
      (parse_u16 ((split_whitespace raw).getD 1 "")).isSome = true →
      iplink.LinkDefinition.try_parse raw = .error .NoSrcVirtualIp) ∧
    (3 ≤ (split_whitespace raw).length →
      (parse_u16 ((split_whitespace raw).getD 1 "")).isSome = true →
      parse_ipv4 ((split_whitespace raw).getD 2 "") = none →
      iplink.LinkDefinition.try_parse raw = .error .MalformedIp) ∧
    ((split_whitespace raw).length = 3 →
      (parse_u16 ((split_whitespace raw).getD 1 "")).isSome = true →
      (parse_ipv4 ((split_whitespace raw).getD 2 "")).isSome = true →
      iplink.LinkDefinition.try_parse raw = .error .NoDstVirtualIp) ∧
    (4 ≤ (split_whitespace raw).length →
      (parse_u16 ((split_whitespace raw).getD 1 "")).isSome = true →
      (parse_ipv4 ((split_whitespace raw).getD 2 "")).isSome = true →
      parse_ipv4 ((split_whitespace raw).getD 3 "") = none →
      iplink.LinkDefinition.try_parse raw = .error .MalformedIp) := by
  rcases hfs : split_whitespace raw with _ | ⟨f0, _ | ⟨f1, _ | ⟨f2, _ | ⟨f3, rest⟩⟩⟩⟩
  · simp [iplink.LinkDefinition.try_parse, hfs, Except.isOk, Except.toBool]
  · simp [iplink.LinkDefinition.try_parse, hfs, Except.isOk, Except.toBool]
  · rcases hp : parse_u16 f1 with _ | port <;>
      simp [iplink.LinkDefinition.try_parse, hfs, hp, Except.isOk, Except.toBool]
  · rcases hp : parse_u16 f1 with _ | port <;>
      rcases hi2 : parse_ipv4 f2 with _ | ip2 <;>
      simp [iplink.LinkDefinition.try_parse, hfs, hp, hi2, Except.isOk, Except.toBool]
  · rcases hp : parse_u16 f1 with _ | port <;>
      rcases hi2 : parse_ipv4 f2 with _ | ip2 <;>
      rcases hi3 : parse_ipv4 f3 with _ | ip3 <;>
      simp [iplink.LinkDefinition.try_parse, hfs, hp, hi2, hi3, Except.isOk, Except.toBool]

/-- C6 witness: a present but malformed second field is reported as
`MalformedPort`. -/
theorem try_parse_characterized_witness :
    iplink.LinkDefinition.try_parse "a bc" = .error .MalformedPort :=
  (try_parse_characterized "a bc").2.2.2.1 (by decide) (by rfl)

/-- C8: `Cli::handle` terminates the REPL (returns `Err(Terminate)`)
exactly when the line parses to the quit command; every parse error
prints the `Display` diagnostic (a nonempty string) and returns
`Ok(())` so the REPL continues; a line with no tokens is a no-op; any
other parsed command is executed and the REPL continues. -/
theorem cli_handle_spec (line : String) :
    ((cli.Cli.handle line).1 = .error .Terminate ↔ cli.parse_command line = .ok .Quit) ∧
    (∀ e, cli.parse_command line = .error e →
      cli.Cli.handle line = (.ok (), .diagnose (cli.ParseError.display e))) ∧
    (cli.parse_command line = .ok .None → cli.Cli.handle line = (.ok (), .noop)) ∧
    (line = "" → cli.Cli.handle line = (.ok (), .noop)) ∧
    (∀ c, cli.parse_command line = .ok c → ¬ c = cli.Command.Quit → ¬ c = cli.Command.None →
      cli.Cli.handle line = (.ok (), .execute c)) ∧
    (∀ e : cli.ParseError, ¬ cli.ParseError.display e = "") := by
  refine ⟨⟨?_, ?_⟩, ?_, ?_, ?_, ?_, ?_⟩
  · intro h
    rcases hp : cli.parse_command line with e | c
    · simp [cli.Cli.handle, hp] at h
    · cases c <;> try rfl
      all_goals simp [cli.Cli.handle, hp] at h
  · intro h
    simp [cli.Cli.handle, h]
  · intro e hp
    simp [cli.Cli.handle, hp]
  · intro hp
    simp [cli.Cli.handle, hp]
  · intro h
    subst h
    rfl
  · intro c hp hq hn
    cases c
    case Quit => exact absurd rfl hq
    case None => exact absurd rfl hn
    all_goals simp [cli.Cli.handle, hp]
  · intro e
    rcases e with - | e2 | e2 | e2 | e2 | e2 | e2 | e2 | e2 | e2 | e2 | e2
    · decide
    · cases e2 <;> decide
    · cases e2 <;> decide
    · cases e2 <;> decide
    · cases e2 <;> decide
    · cases e2 <;> decide
    · cases e2 <;> decide
    · cases e2 <;> decide
    · rcases e2 with - | - | s
      · decide
      · decide
      · intro hcontra
        have hlen := congrArg String.length hcontra
        simp [cli.ParseError.display, cli.ParseTcpShutdownError.debugStr,
          String.length_append] at hlen
        exact absurd hlen.1 (by decide)
    · cases e2 <;> decide
    · cases e2 <;> decide
    · cases e2 <;> decide

/-- C8 witness: an unknown command prints the diagnostic and the REPL
continues; the empty line is a no-op. -/
theorem cli_handle_spec_witness :
    cli.Cli.handle "blah" = (.ok (), .diagnose (cli.ParseError.display .Unknown)) ∧
    cli.Cli.handle "" = (.ok (), .noop) :=
  ⟨(cli_handle_spec "blah").2.1 .Unknown rfl, (cli_handle_spec "").2.2.2.1 rfl⟩

/-- A key larger than every key present is absent. -/
theorem lookup_none_of_lt {β : Type} (l : List (Nat × β)) (d : Nat)
    (h : ∀ kv ∈ l, kv.1 < d) : l.lookup d = none := by
  induction l with
  | nil => rfl
  | cons kv rest ih =>
    obtain ⟨k1, v1⟩ := kv
    have h1 : k1 < d := h (k1, v1) (List.mem_cons_self _ _)
    have hb : (d == k1) = false := by
      simp only [beq_eq_false_iff_ne]
      omega
    simp only [List.lookup, hb]
    exact ih fun kv hm => h kv (List.mem_cons_of_mem _ hm)

/-- Appending a binding on a strictly larger key preserves the
below-next bound after the counter advances. -/
theorem descriptors_bound_extend {idm : List (Nat × SocketId)} {n : Nat} {sid : SocketId}
    (h : ∀ kv ∈ idm, kv.1 < n) :
    ∀ kv ∈ idm ++ [(n, sid)], kv.1 < n + 1 := by
  intro kv hm
  rcases List.mem_append.mp hm with hm | hm
  · exact Nat.lt_succ_of_lt (h kv hm)
  · have : kv = (n, sid) := List.mem_singleton.mp hm
    subst this
    exact Nat.lt_succ_self n

/-- One socket-table operation from a well-formed table never panics,
allocates exactly the descriptors `[next, next + k)` in order, advances
the counter by that count, and preserves well-formedness. -/
theorem step_sound (t : SocketTable) (op : TableOp) (hInv : t.descriptorsBelowNext) :
    ∃ t1 ds, t.step op = some (t1, ds) ∧
      ds = List.range' t.next_socket_descriptor ds.length ∧
      t1.next_socket_descriptor = t.next_socket_descriptor + ds.length ∧
      t1.descriptorsBelowNext := by
  have hidm : t.socket_id_map.lookup t.next_socket_descriptor = none :=
    lookup_none_of_lt _ _ hInv
  cases op with
  | removeOp id =>
    exact ⟨t.remove_by_id id, [], rfl, rfl, by simp [SocketTable.remove_by_id], hInv⟩
  | listenOp p =>
    rcases hlk : t.socket_map.lookup (SocketId.for_listen_socket p) with _ | s
    · refine ⟨{ t with
          socket_map := t.socket_map ++ [(SocketId.for_listen_socket p,
            { id := SocketId.for_listen_socket p, descriptor := t.next_socket_descriptor })],
          socket_id_map := t.socket_id_map ++
            [(t.next_socket_descriptor, SocketId.for_listen_socket p)],
          next_socket_descriptor := t.next_socket_descriptor + 1 },
        [t.next_socket_descriptor], ?_, rfl, rfl, ?_⟩
      · simp only [SocketTable.step, SocketTable.add_new_listen_socket,
          SocketTable.build_with_id, SocketTable.allocate_socket_descriptor,
          SocketTable.insert, hlk, hidm]
      · exact descriptors_bound_extend hInv
    · refine ⟨{ t with next_socket_descriptor := t.next_socket_descriptor + 1 },
        [t.next_socket_descriptor], ?_, rfl, rfl, ?_⟩
      · simp only [SocketTable.step, SocketTable.add_new_listen_socket,
          SocketTable.build_with_id, SocketTable.allocate_socket_descriptor,
          SocketTable.insert, hlk]
      · exact fun kv hm => Nat.lt_succ_of_lt (hInv kv hm)
  | synRecvdOp r lp =>
    rcases hlk : t.socket_map.lookup (SocketId.Connection lp r.ip r.port) with _ | s
    · refine ⟨{ t with
          socket_map := t.socket_map ++ [(SocketId.Connection lp r.ip r.port,
            { id := SocketId.Connection lp r.ip r.port,
              descriptor := t.next_socket_descriptor })],
          socket_id_map := t.socket_id_map ++
            [(t.next_socket_descriptor, SocketId.Connection lp r.ip r.port)],
          next_socket_descriptor := t.next_socket_descriptor + 1 },
        [t.next_socket_descriptor], ?_, rfl, rfl, ?_⟩
      · simp only [SocketTable.step, SocketTable.add_new_syn_recvd_socket,
          SocketTable.allocate_socket_descriptor, SocketTable.insert, hlk, hidm]
      · exact descriptors_bound_extend hInv
    · refine ⟨{ t with next_socket_descriptor := t.next_socket_descriptor + 1 },
        [t.next_socket_descriptor], ?_, rfl, rfl, ?_⟩
      · simp only [SocketTable.step, SocketTable.add_new_syn_recvd_socket,
          SocketTable.allocate_socket_descriptor, SocketTable.insert, hlk]
      · exact fun kv hm => Nat.lt_succ_of_lt (hInv kv hm)
  | connectOp r oc =>
    rcases hlk : t.socket_map.lookup (SocketId.Connection ⟨t.next_port⟩ r.ip r.port) with _ | s
    · cases oc with
      | ok u =>
        refine ⟨{ t with
            socket_map := t.socket_map ++ [(SocketId.Connection ⟨t.next_port⟩ r.ip r.port,
              { id := SocketId.Connection ⟨t.next_port⟩ r.ip r.port,
                descriptor := t.next_socket_descriptor })],
            socket_id_map := t.socket_id_map ++
              [(t.next_socket_descriptor, SocketId.Connection ⟨t.next_port⟩ r.ip r.port)],
            next_socket_descriptor := t.next_socket_descriptor + 1,
            next_port := t.next_port + 1 },
          [t.next_socket_descriptor], ?_, rfl, rfl, ?_⟩
        · simp only [SocketTable.step, Tcp.connect, SocketTable.add_new_socket,
            SocketTable.make_socket_id, SocketTable.build_with_id,
            SocketTable.allocate_socket_descriptor, SocketTable.insert, hlk, hidm]
        · exact descriptors_bound_extend hInv
      | error e =>
        refine ⟨SocketTable.remove_by_id
            { t with
              socket_map := t.socket_map ++ [(SocketId.Connection ⟨t.next_port⟩ r.ip r.port,
                { id := SocketId.Connection ⟨t.next_port⟩ r.ip r.port,
                  descriptor := t.next_socket_descriptor })],
              socket_id_map := t.socket_id_map ++
                [(t.next_socket_descriptor, SocketId.Connection ⟨t.next_port⟩ r.ip r.port)],
              next_socket_descriptor := t.next_socket_descriptor + 1,
              next_port := t.next_port + 1 }
            (SocketId.Connection ⟨t.next_port⟩ r.ip r.port),
          [t.next_socket_descriptor], ?_, rfl, rfl, ?_⟩
        · simp only [SocketTable.step, Tcp.connect, SocketTable.add_new_socket,
            SocketTable.make_socket_id, SocketTable.build_with_id,
            SocketTable.allocate_socket_descriptor, SocketTable.insert, hlk, hidm]
        · exact descriptors_bound_extend hInv
    · refine ⟨{ t with
          next_socket_descriptor := t.next_socket_descriptor + 1,
          next_port := t.next_port + 1 },
        [t.next_socket_descriptor], ?_, rfl, rfl, ?_⟩
      · simp only [SocketTable.step, Tcp.connect, SocketTable.add_new_socket,
          SocketTable.make_socket_id, SocketTable.build_with_id,
          SocketTable.allocate_socket_descriptor, SocketTable.insert, hlk]
      · exact fun kv hm => Nat.lt_succ_of_lt (hInv kv hm)

/-- Running any operation sequence from a well-formed table never
panics, and the chronological descriptor trace is the consecutive
interval starting at the current counter. -/
theorem run_sound (ops : List TableOp) :
    ∀ t : SocketTable, t.descriptorsBelowNext →
    ∃ t1 ds, t.run ops = some (t1, ds) ∧
      ds = List.range' t.next_socket_descriptor ds.length ∧
      t1.next_socket_descriptor = t.next_socket_descriptor + ds.length ∧
      t1.descriptorsBelowNext := by
  induction ops with
  | nil =>
    intro t h
    exact ⟨t, [], rfl, rfl, by simp, h⟩
  | cons op rest ih =>
    intro t h
    obtain ⟨t1, ds, hstep, hds, hnext, hinv⟩ := step_sound t op h
    obtain ⟨t2, ds2, hrun, hds2, hnext2, hinv2⟩ := ih t1 hinv
    refine ⟨t2, ds ++ ds2, ?_, ?_, ?_, hinv2⟩
    · simp only [SocketTable.run, hstep, hrun]
    · rw [List.length_append]
      calc ds ++ ds2
          = List.range' t.next_socket_descriptor ds.length ++
            List.range' (t.next_socket_descriptor + ds.length) ds2.length := by
            rw [← hds, ← hnext, ← hds2]
        _ = List.range' t.next_socket_descriptor (ds.length + ds2.length) := by
            have h3 := List.range'_append t.next_socket_descriptor ds.length ds2.length 1
            simp only [one_mul] at h3
            rw [Nat.add_comm ds2.length ds.length] at h3
            exact h3
    · rw [List.length_append, hnext2, hnext]
      omega

/-- C9: from a fresh table, any sequence of socket-table operations
(connects, listens, SYN-received inserts, removals) allocates socket
descriptors 0, 1, 2, ... in order: the trace is strictly increasing
starting from 0, no descriptor is ever reused, and no run reaches the
duplicate-descriptor panic inside `SocketTable::insert`. -/
theorem socket_descriptors_monotonic (ops : List TableOp) :
    ∃ t ds, SocketTable.new.run ops = some (t, ds) ∧
      ds = List.range ds.length ∧
      t.next_socket_descriptor = ds.length ∧
      ds.Pairwise (· < ·) := by
  obtain ⟨t, ds, hrun, hds, hnext, -⟩ :=
    run_sound ops SocketTable.new (fun kv hm => absurd hm (List.not_mem_nil kv))
  have hrange : ds = List.range ds.length := by
    rw [List.range_eq_range']
    simpa using hds
  refine ⟨t, ds, hrun, hrange, by simpa [SocketTable.new] using hnext, ?_⟩
  rw [hrange]
  exact List.pairwise_lt_range ds.length

end Titan
